import Mathlib

/-!
A verification development for a single-user library catalog manager
(`Librarymanagement.py`).  The program keeps an ordered table of book
records in memory, persists it to a CSV file after every interaction,
and offers add / remove / search / list / statistics operations behind
a menu-driven shell.

The shallow embedding below translates the program's data model and
operations into Lean:

* a pandas DataFrame row becomes a `Book`; the DataFrame becomes a
  `Table` (a list of records, insertion order preserved);
* the CSV file is modelled at the level of its cell contents: a file is
  a list of rows, each row a list of cell strings (`Title`, `Author`,
  `ISBN`, `Quantity`, `Date Added`); integer cells are written with
  `Nat.repr` and re-parsed with `String.toNat?`, which models the
  decimal serialization performed by `to_csv` / `read_csv`;
* dates are carried as their calendar-date strings (the content of a
  `datetime.date`; conversion to pandas timestamps on load preserves
  this content);
* Streamlit outputs (`st.error`, `st.success`, `st.info`, widget
  renderings of tables) become a list of `Msg` values;
* the file system is a `DiskState` (missing file, unreadable file, or a
  stored list of rows) plus a writability flag, bundled in `Sys`;
* Python exceptions raised by the storage layer are modelled with
  `Except PyError`; code points that catch exceptions pattern-match on
  the `Except` value, so an exception that no handler catches would
  surface as an `Except.error` result of the top-level step function;
* `mainStep` models one full shell interaction of `main`: load the
  table from disk, dispatch on the menu choice with the submitted form
  inputs, and perform the trailing save that `main` always executes.
-/

namespace LibraryManagement

/-- A book record: one row of the catalog table.  `Quantity` is a
positive integer in the UI (widget minimum 1); `Date Added` is carried
as its calendar-date string. -/
structure Book where
  title : String
  author : String
  isbn : String
  quantity : Nat
  dateAdded : String
deriving DecidableEq, Repr

/-- The in-memory book table: an ordered list of records.  This typed
table describes the program state exactly when every text cell is kept
as a string by the storage layer (which holds for tables built from the
form inputs of one session, and for stored tables in the
inference-stable fragment; see `inferCell` for the general model). -/
abbrev Table := List Book

/-- A Python value held in one DataFrame cell after `pd.read_csv` type
inference: a string, an integer (digit-only cells become int64), or
some other inferred non-string value (float, NaN from an empty cell,
boolean, ...).  For the last kind the source text is carried; the exact
numeric value and its `to_csv` re-rendering are outside the model and
no theorem below depends on them. -/
inductive PyVal where
  | str (s : String)
  | int (n : Nat)
  | numOther (src : String)
deriving DecidableEq, Repr

/-- One row of the loaded DataFrame at the value level. -/
structure PRow where
  title : PyVal
  author : PyVal
  isbn : PyVal
  quantity : PyVal
  dateAdded : PyVal
deriving DecidableEq, Repr

/-- The loaded DataFrame at the value level. -/
abbrev PTable := List PRow

/-- One user-visible output of an interaction (`st.error`, `st.success`,
`st.info`, `st.write` of a text, or a rendering of a table, typed or
value-level). -/
inductive Msg where
  | error (text : String)
  | success (text : String)
  | info (text : String)
  | display (rows : Table)
  | displayV (rows : List PRow)
  | write (text : String)
deriving DecidableEq, Repr

/-- The state of the persisted CSV file: absent, present but unreadable,
or present with the given rows of cell strings. -/
inductive DiskState where
  | missing
  | corrupt
  | stored (rows : List (List String))
deriving DecidableEq, Repr

/-- The storage environment: the file state and whether writes succeed. -/
structure Sys where
  disk : DiskState
  writable : Bool
deriving DecidableEq, Repr

/-- Python exceptions that the storage layer and the regex engine can
raise. -/
inductive PyError where
  | fileNotFound
  | attributeError
  | ioError
  | parserError
  | reError
deriving DecidableEq, Repr

/-- Serialize one record to a CSV row of cell strings, in the column
order `Title, Author, ISBN, Quantity, Date Added`. -/
def bookToRow (b : Book) : List String :=
  [b.title, b.author, b.isbn, Nat.repr b.quantity, b.dateAdded]

/-- Serialize the whole table, one row per record (`to_csv`). -/
def saveRows (df : Table) : List (List String) :=
  df.map bookToRow

/-- Parse one CSV row back into a typed record, reading the text cells
verbatim; fails on a malformed row (wrong arity or a non-numeric
`Quantity` cell).  Verbatim reading describes `read_csv` exactly on
inference-stable cells; `rowToPRow` below is the general value-level
model in which digit-only cells become integers. -/
def rowToBook : List String → Option Book
  | [t, a, i, q, d] =>
    match q.toNat? with
    | some qn => some ⟨t, a, i, qn, d⟩
    | none => none
  | _ => none

/-- Parse a stored file back into a table; fails if any row fails. -/
def parseTable : List (List String) → Option Table
  | [] => some []
  | r :: rs =>
    match rowToBook r, parseTable rs with
    | some b, some t => some (b :: t)
    | _, _ => none

/-- The raw `pd.read_csv` call: raises `FileNotFoundError` on a missing
file and other exceptions on an unreadable or malformed file. -/
def readCsvRaw : DiskState → Except PyError Table
  | .missing => .error .fileNotFound
  | .corrupt => .error .ioError
  | .stored rows =>
    match parseTable rows with
    | some t => .ok t
    | none => .error .parserError

/-- Model of `load_data` over the typed table (verbatim text cells, so
exact on the inference-stable fragment; `load_dataV` below is the
value-level model with type inference).  A missing file yields an
empty table silently; any other failure reports an error and yields an
empty table.  Never raises to its caller. -/
def load_data (d : DiskState) : Table × List Msg :=
  match readCsvRaw d with
  | .ok df => (df, [])
  | .error .fileNotFound => ([], [])
  | .error _ => ([], [Msg.error "An error occurred while loading data"])

/-- The table a shell interaction starting from disk state `d` works on. -/
def tableOf (d : DiskState) : Table :=
  (load_data d).1

/-- The raw `df.to_csv` call: overwrites the file with the serialized
table, or raises when the file is not writable. -/
def toCsvRaw (sys : Sys) (df : Table) : Except PyError Sys :=
  if sys.writable then .ok { sys with disk := .stored (saveRows df) }
  else .error .ioError

/-- Model of `save_data`: writes the table, reporting (but swallowing) any
exception.  `main` can also reach this call with the Python value
`None` in the `df` variable, in which case the attribute access
`df.to_csv` raises and the handler reports the error. -/
def save_data (sys : Sys) (df : Option Table) : Sys × List Msg :=
  match df with
  | none => (sys, [Msg.error "An error occurred while saving data"])
  | some t =>
    match toCsvRaw sys t with
    | .ok sys1 => (sys1, [])
    | .error _ => (sys, [Msg.error "An error occurred while saving data"])

/-- Model of `add_book`, at the point where the Add Book form has been submitted
with the given field contents and `date_added = datetime.date.today()`
is the string `today`.  Returns the new storage state, the Python
return value (`None` on a validation failure, the updated table on
success), and the outputs. -/
def add_book (sys : Sys) (df : Table) (title author isbn : String)
    (quantity : Nat) (today : String) : Sys × Option Table × List Msg :=
  if title.isEmpty || author.isEmpty || isbn.isEmpty then
    (sys, none, [Msg.error "Please fill in all book details."])
  else if df.any (fun b => b.isbn == isbn) then
    (sys, none, [Msg.error "Book with this ISBN already exists."])
  else
    let df1 := df ++ [⟨title, author, isbn, quantity, today⟩]
    let s1 := save_data sys (some df1)
    (s1.1, some df1,
      s1.2 ++ [Msg.success ("Book " ++ title ++ " added successfully!")])

/-- Model of `remove_book`, at the point where the Remove button has been pressed
with the given ISBN field contents. -/
def remove_book (sys : Sys) (df : Table) (isbnToRemove : String) :
    Sys × Option Table × List Msg :=
  if isbnToRemove.isEmpty then
    (sys, none, [Msg.error "Please enter the ISBN of the book to remove."])
  else if !(df.any (fun b => b.isbn == isbnToRemove)) then
    (sys, none, [Msg.error "Book with this ISBN does not exist."])
  else
    let df1 := df.filter (fun b => b.isbn != isbnToRemove)
    let s1 := save_data sys (some df1)
    (s1.1, some df1, s1.2 ++ [Msg.success "Book removed successfully!"])

/-- Lower-case the characters of a string (the content of Python
`str.lower()` on the ASCII range used by the catalog). -/
def lowerData (s : String) : List Char :=
  s.data.map Char.toLower

/-- Does `pat` start `hay`?  (Executable prefix test.) -/
def startsWithSeq (pat : List Char) : List Char → Bool :=
  List.isPrefixOf pat

/-- Does `pat` occur contiguously inside `hay`?  Executable substring
test.  The pandas `str.contains` call applies the term as a regular
expression; this literal test coincides with it exactly for terms free
of regex metacharacters (`compileRe`, `reSearch` below model the
general behavior, including the `re.error` raise on a malformed
pattern). -/
def containsSeq (pat : List Char) : List Char → Bool
  | [] => List.isPrefixOf pat []
  | c :: hs => List.isPrefixOf pat (c :: hs) || containsSeq pat hs

/-- The row mask of `search_book` for a metacharacter-free term: the
lowered term occurs in the lowered `Title` or in the lowered `Author`
(for such terms the program's regex search is exactly this substring
test; `search_bookV` below is the general model). -/
def matchesTerm (term : String) (b : Book) : Bool :=
  containsSeq (lowerData term) (lowerData b.title) ||
    containsSeq (lowerData term) (lowerData b.author)

/-- Model of `search_book`: with a non-empty term, filter the table by the
case-insensitive mask and display the result (or report no matches);
with an empty term, ask for a term.  The table is not written. -/
def search_book (df : Table) (searchTerm : String) : List Msg :=
  if !searchTerm.isEmpty then
    let results := df.filter (matchesTerm searchTerm)
    if !results.isEmpty then [Msg.display results]
    else [Msg.info "No matching books found."]
  else
    [Msg.info "Please enter a search term."]

/-- Model of `display_all_books`. -/
def display_all_books (df : Table) : List Msg :=
  if df.isEmpty then [Msg.info "The library is empty."]
  else [Msg.display df]

/-- Number of occurrences of the value `a` in the author column `l`. -/
def authorCount (l : List String) (a : String) : Nat :=
  (l.filter (fun x => x == a)).length

/-- The highest occurrence count in the author column `l`. -/
def maxAuthorCount (l : List String) : Nat :=
  (l.map (authorCount l)).foldr max 0

/-- The least element of a list of strings (lexicographic order). -/
def leastOf : List String → Option String
  | [] => none
  | x :: xs => some (xs.foldl (fun m a => if a < m then a else m) x)

/-- Model of `Series.mode()[0]` of pandas on the author column: the modal values
are returned in sorted order, so the first one is the least value whose
occurrence count is maximal. -/
def modeFirst (l : List String) : Option String :=
  leastOf (l.filter (fun a => authorCount l a == maxAuthorCount l))

/-- Model of `display_statistics`: an empty table only gets an info message; a
non-empty table gets the quantity total, the record count, and the
first mode of the author column. -/
def display_statistics (df : Table) : List Msg :=
  if df.isEmpty then
    [Msg.info "No books in the library to display statistics."]
  else
    let total_books := (df.map (fun b => b.quantity)).sum
    let unique_books := df.length
    let most_common_author := (modeFirst (df.map (fun b => b.author))).getD "N/A"
    [Msg.write ("Total Number of Books: " ++ Nat.repr total_books),
     Msg.write ("Number of Unique Books: " ++ Nat.repr unique_books),
     Msg.write ("Most Common Author: " ++ most_common_author)]

/-- One entry of the sidebar menu. -/
inductive Choice where
  | addBook
  | removeBook
  | searchBook
  | displayAllBooks
  | displayStatistics
  | exitApp
deriving DecidableEq, Repr

/-- The form contents of one interaction: the Add Book fields, the
Remove Book field, the search field, and the current date. -/
structure Inputs where
  title : String
  author : String
  isbn : String
  quantity : Nat
  isbnToRemove : String
  searchTerm : String
  today : String
deriving DecidableEq, Repr

/-- One interaction of `main`: load the table, dispatch on the menu
choice, then perform the unconditional trailing `save_data(df)` (whose
argument is the Python variable `df`, which an aborted add or remove
has set to `None`).  An uncaught exception would surface as an
`Except.error` value. -/
def mainStep (sys : Sys) (choice : Choice) (inp : Inputs) :
    Except PyError (Sys × List Msg) :=
  let l := load_data sys.disk
  let df := l.1
  let msgs0 := l.2
  match choice with
  | .addBook =>
    let r := add_book sys df inp.title inp.author inp.isbn inp.quantity inp.today
    let mid := match r.2.1 with
      | some t => save_data r.1 (some t)
      | none => (r.1, ([] : List Msg))
    let fin := save_data mid.1 r.2.1
    .ok (fin.1, msgs0 ++ r.2.2 ++ mid.2 ++ fin.2)
  | .removeBook =>
    let r := remove_book sys df inp.isbnToRemove
    let mid := match r.2.1 with
      | some t => save_data r.1 (some t)
      | none => (r.1, ([] : List Msg))
    let fin := save_data mid.1 r.2.1
    .ok (fin.1, msgs0 ++ r.2.2 ++ mid.2 ++ fin.2)
  | .searchBook =>
    let fin := save_data sys (some df)
    .ok (fin.1, msgs0 ++ search_book df inp.searchTerm ++ fin.2)
  | .displayAllBooks =>
    let fin := save_data sys (some df)
    .ok (fin.1, msgs0 ++ display_all_books df ++ fin.2)
  | .displayStatistics =>
    let fin := save_data sys (some df)
    .ok (fin.1, msgs0 ++ display_statistics df ++ fin.2)
  | .exitApp =>
    let fin := save_data sys (some df)
    .ok (fin.1, msgs0 ++ [Msg.write "Exiting the application."] ++ fin.2)

/-- ISBN uniqueness: all records of the table have pairwise-distinct
ISBN values. -/
def distinctIsbns (df : Table) : Prop :=
  df.Pairwise (fun a b => a.isbn ≠ b.isbn)

/-! ### Value-level storage model: read_csv type inference -/

/-- The cell text `to_csv` writes for a value.  Integers render in
decimal; for `numOther` values the model carries the source text
(pandas would use its own numeric formatting; no theorem depends on
the rendering of such cells). -/
def renderCell : PyVal → String
  | .str s => s
  | .int n => Nat.repr n
  | .numOther src => src

def prowToRow (r : PRow) : List String :=
  [renderCell r.title, renderCell r.author, renderCell r.isbn,
    renderCell r.quantity, renderCell r.dateAdded]

def saveRowsV (df : PTable) : List (List String) :=
  df.map prowToRow

def toCsvRawV (sys : Sys) (df : PTable) : Except PyError Sys :=
  if sys.writable then .ok { sys with disk := .stored (saveRowsV df) }
  else .error .ioError

def save_dataV (sys : Sys) (df : Option PTable) : Sys × List Msg :=
  match df with
  | none => (sys, [Msg.error "An error occurred while saving data"])
  | some t =>
    match toCsvRawV sys t with
    | .ok sys1 => (sys1, [])
    | .error _ => (sys, [Msg.error "An error occurred while saving data"])

/-- Regex metacharacters of Python `re`, by code point:
dot, caret, dollar, star, plus, question mark, braces, brackets,
parentheses, vertical bar, backslash. -/
def metaChar (c : Char) : Bool :=
  let n := c.toNat
  n == 46 || n == 94 || n == 36 || n == 42 || n == 43 || n == 63 ||
    n == 123 || n == 125 || n == 91 || n == 93 || n == 40 || n == 41 ||
    n == 124 || n == 92

/-- A token of the modelled regex fragment: a literal character or the
dot wildcard. -/
inductive RTok where
  | lit (c : Char)
  | dot
deriving DecidableEq, Repr

/-- Outcome of `re.compile` on a search term: a token list when the
pattern is in the literal/dot fragment; `malformed` for listed
patterns on which Python raises `re.error` (unbalanced parenthesis,
unterminated set, nothing to repeat, multiple repeat); `unmodeled` for
every other pattern (valid regexes with quantifiers, classes, groups,
escapes, and further malformed ones) — the embedding claims nothing
about those. -/
inductive RePattern where
  | tokens (ts : List RTok)
  | malformed
  | unmodeled
deriving DecidableEq, Repr

def compileRe (pat : String) : RePattern :=
  if pat.data.all (fun c => !metaChar c || c.toNat == 46) then
    .tokens (pat.data.map (fun c => if c.toNat == 46 then RTok.dot else RTok.lit c))
  else if pat == "(" || pat == ")" || pat == "[" || pat == "+" || pat == "c++" then
    .malformed
  else
    .unmodeled

/-- One token against one character; the dot matches anything except a
newline (code 10). -/
def matchTok : RTok → Char → Bool
  | .lit c, d => c == d
  | .dot, d => !(d.toNat == 10)

/-- Do the tokens match a prefix of the text? -/
def matchesAt : List RTok → List Char → Bool
  | [], _ => true
  | _ :: _, [] => false
  | t :: ts, c :: cs => matchTok t c && matchesAt ts cs

/-- Python `re.search` of a literal/dot pattern: the tokens match
contiguously somewhere in the text. -/
def reSearch (ts : List RTok) : List Char → Bool
  | [] => matchesAt ts []
  | c :: cs => matchesAt ts (c :: cs) || reSearch ts cs

/-- Three-valued outcome of a modelled call: the program returns a
value, raises an exception, or is outside the modelled fragment (the
embedding claims nothing in the last case). -/
inductive ModelOutcome (α : Type) where
  | ok (a : α)
  | raise (e : PyError)
  | unmodeled
deriving DecidableEq, Repr

def PyVal.isStr : PyVal → Bool
  | .str _ => true
  | _ => false

/-- The character data of a string cell (only used under an all-string
column guard; the default branch is dead there). -/
def pyStrData : PyVal → List Char
  | .str s => s.data
  | _ => []

/-- Value-level `search_book`, following the evaluation order of the
source line: `df['Title'].str.lower()` first (raising
`AttributeError` on a numeric-dtype column; a mixed column is outside
the model), then `.str.contains` compiles the lowered term (raising
`re.error` on a malformed pattern, even against an empty table), then
the Author column likewise, then the mask selects rows. -/
def search_bookV (df : PTable) (searchTerm : String) : ModelOutcome (List Msg) :=
  if !searchTerm.isEmpty then
    if df.all (fun r => r.title.isStr) then
      match compileRe ((searchTerm.data.map Char.toLower).asString) with
      | .malformed => .raise .reError
      | .unmodeled => .unmodeled
      | .tokens ts =>
        if df.all (fun r => r.author.isStr) then
          let results := df.filter (fun r =>
            reSearch ts ((pyStrData r.title).map Char.toLower) ||
              reSearch ts ((pyStrData r.author).map Char.toLower))
          .ok (if !results.isEmpty then [Msg.displayV results]
            else [Msg.info "No matching books found."])
        else if df.all (fun r => !r.author.isStr) then .raise .attributeError
        else .unmodeled
    else if df.all (fun r => !r.title.isStr) then .raise .attributeError
    else .unmodeled
  else .ok [Msg.info "Please enter a search term."]

/-- The value-level row of an in-session typed record. -/
def embedBook (b : Book) : PRow :=
  ⟨.str b.title, .str b.author, .str b.isbn, .int b.quantity, .str b.dateAdded⟩

def embedTable (df : Table) : PTable := df.map embedBook

/-- The decimal digit characters of `n`, least significant digit at the
head when read through `reverse` (so `(decChars n).reverse` is the
printed numeral). -/
def decChars (n : Nat) : List Char :=
  if _h : n < 10 then [Nat.digitChar n]
  else Nat.digitChar (n % 10) :: decChars (n / 10)
termination_by n
decreasing_by
  exact Nat.div_lt_self (by omega) (by omega)

theorem decChars_ne_nil (n : Nat) : decChars n ≠ [] := by
  rw [decChars]
  split <;> simp

theorem digitChar_isDigit {d : Nat} (h : d < 10) : (Nat.digitChar d).isDigit = true := by
  interval_cases d <;> decide

theorem digitChar_sub_48 {d : Nat} (h : d < 10) :
    (Nat.digitChar d).toNat - 48 = d := by
  interval_cases d <;> decide

theorem decChars_isDigit (n : Nat) : ∀ c ∈ decChars n, c.isDigit = true := by
  induction n using Nat.strong_induction_on with
  | _ n ih =>
    rw [decChars]
    by_cases h : n < 10
    · simp only [h, dif_pos, List.mem_singleton]
      rintro c rfl
      exact digitChar_isDigit h
    · simp only [h, dif_neg, not_false_iff]
      intro c hc
      rcases List.mem_cons.mp hc with hc1 | hc2
      · rw [hc1]
        exact digitChar_isDigit (Nat.mod_lt n (by omega))
      · exact ih (n / 10) (Nat.div_lt_self (by omega) (by omega)) c hc2

theorem toDigitsCore_eq (fuel : Nat) : ∀ (n : Nat) (acc : List Char), n < fuel →
    Nat.toDigitsCore 10 fuel n acc = (decChars n).reverse ++ acc := by
  induction fuel with
  | zero => omega
  | succ f ih =>
    intro n acc h
    by_cases h10 : n < 10
    · have hdiv : n / 10 = 0 := Nat.div_eq_of_lt h10
      rw [decChars]
      simp [Nat.toDigitsCore, hdiv, h10, Nat.mod_eq_of_lt h10]
    · have hdiv : n / 10 ≠ 0 := by
        intro h0
        have h2 := Nat.div_add_mod n 10
        have h3 := Nat.mod_lt n (show 0 < 10 by omega)
        omega
      rw [decChars]
      simp only [h10, dif_neg, not_false_iff]
      show Nat.toDigitsCore 10 (f + 1) n acc = _
      rw [Nat.toDigitsCore]
      simp only [hdiv, if_neg, not_false_iff]
      rw [ih (n / 10) _ (by
        have h1 : n / 10 < n := Nat.div_lt_self (by omega) (by omega)
        omega)]
      simp [List.append_assoc]

theorem foldl_decChars (n : Nat) : ∀ (a : Nat),
    List.foldl (fun m c => m * 10 + (c.toNat - 48)) a (decChars n).reverse
      = a * 10 ^ (decChars n).length + n := by
  induction n using Nat.strong_induction_on with
  | _ n ih =>
    intro a
    rw [decChars]
    by_cases h : n < 10
    · simp only [h, dif_pos, List.reverse_singleton, List.foldl_cons, List.foldl_nil,
        List.length_singleton, pow_one]
      rw [digitChar_sub_48 h]
    · simp only [h, dif_neg, not_false_iff, List.reverse_cons, List.foldl_append,
        List.foldl_cons, List.foldl_nil, List.length_cons]
      rw [ih (n / 10) (Nat.div_lt_self (by omega) (by omega)) a]
      rw [digitChar_sub_48 (Nat.mod_lt n (by omega))]
      have h4 : (a * 10 ^ (decChars (n / 10)).length + n / 10) * 10 + n % 10
          = a * 10 ^ ((decChars (n / 10)).length + 1) + (10 * (n / 10) + n % 10) := by
        ring
      rw [h4, Nat.div_add_mod]

theorem char_zero_toNat : Char.toNat ( '0') = 48 := rfl

/-- The decimal rendering of a natural number parses back to itself. -/
theorem toNat?_repr (n : Nat) : (Nat.repr n).toNat? = some n := by
  have hne : decChars n ≠ [] := decChars_ne_nil n
  have hL : Nat.toDigits 10 n = (decChars n).reverse := by
    have h := toDigitsCore_eq (n + 1) n [] (Nat.lt_succ_self n)
    simpa [Nat.toDigits] using h
  have hdata : ((decChars n).reverse.asString).data = (decChars n).reverse := rfl
  have hnotempty : ((decChars n).reverse.asString).isEmpty = false := by
    rw [Bool.eq_false_iff]
    intro hemp
    have h1 : (decChars n).reverse.asString = "" :=
      (String.isEmpty_iff _).mp hemp
    have h2 : (decChars n).reverse = [] := by
      have h3 : (decChars n).reverse.asString = List.asString [] := by
        rw [h1]; rfl
      exact List.asString_inj.mp h3
    simp only [List.reverse_eq_nil_iff] at h2
    exact hne h2
  have hall : ((decChars n).reverse.asString).all (·.isDigit) = true := by
    rw [String.all_eq, hdata, List.all_eq_true]
    intro c hc
    exact decChars_isDigit n c (List.mem_reverse.mp hc)
  have hisnat : ((decChars n).reverse.asString).isNat = true := by
    rw [String.isNat, hnotempty, hall]
    rfl
  rw [Nat.repr, hL, String.toNat?, if_pos hisnat]
  rw [String.foldl_eq, hdata]
  simp only [char_zero_toNat]
  have hv := foldl_decChars n 0
  simp only [Nat.zero_mul, Nat.zero_add] at hv
  rw [hv]

/-! ### Storage layer lemmas -/

theorem rowToBook_bookToRow (b : Book) : rowToBook (bookToRow b) = some b := by
  simp [rowToBook, bookToRow, toNat?_repr]

theorem parseTable_saveRows (df : Table) : parseTable (saveRows df) = some df := by
  induction df with
  | nil => rfl
  | cons b t ih =>
    simp only [saveRows, List.map_cons] at ih ⊢
    simp [parseTable, rowToBook_bookToRow, ih]

theorem load_data_stored_saveRows (df : Table) :
    load_data (DiskState.stored (saveRows df)) = (df, []) := by
  simp [load_data, readCsvRaw, parseTable_saveRows]

theorem tableOf_stored (df : Table) : tableOf (DiskState.stored (saveRows df)) = df := by
  simp [tableOf, load_data_stored_saveRows]

theorem save_data_none (sys : Sys) :
    save_data sys none = (sys, [Msg.error "An error occurred while saving data"]) := rfl

theorem save_data_some_writable (sys : Sys) (t : Table) (h : sys.writable = true) :
    save_data sys (some t) = ({ sys with disk := .stored (saveRows t) }, []) := by
  simp [save_data, toCsvRaw, h]

theorem save_data_some_ro (sys : Sys) (t : Table) (h : sys.writable = false) :
    save_data sys (some t) = (sys, [Msg.error "An error occurred while saving data"]) := by
  simp [save_data, toCsvRaw, h]

theorem save_data_fst_writable (sys : Sys) (odf : Option Table) :
    ((save_data sys odf).1).writable = sys.writable := by
  match odf with
  | none => rfl
  | some t =>
    by_cases h : sys.writable
    · rw [save_data_some_writable sys t h]
    · rw [save_data_some_ro sys t (Bool.eq_false_iff.mpr h)]

/-- After a (possibly failing) save of `t`, the stored table is either
untouched or exactly `t`. -/
theorem tableOf_save_data_some (sys : Sys) (t : Table) :
    tableOf ((save_data sys (some t)).1).disk = tableOf sys.disk ∨
      tableOf ((save_data sys (some t)).1).disk = t := by
  by_cases h : sys.writable
  · right
    rw [save_data_some_writable sys t h]
    exact tableOf_stored t
  · left
    rw [save_data_some_ro sys t (Bool.eq_false_iff.mpr h)]

/-! ### Catalog operation characterizations -/

theorem tableOf_eq (d : DiskState) : (load_data d).1 = tableOf d := rfl

theorem add_book_missing_field (sys : Sys) (df : Table) (title author isbn : String)
    (q : Nat) (today : String)
    (h : (title.isEmpty || author.isEmpty || isbn.isEmpty) = true) :
    add_book sys df title author isbn q today
      = (sys, none, [Msg.error "Please fill in all book details."]) := by
  simp [add_book, h]

theorem add_book_duplicate (sys : Sys) (df : Table) (title author isbn : String)
    (q : Nat) (today : String)
    (h : (title.isEmpty || author.isEmpty || isbn.isEmpty) = false)
    (h4 : df.any (fun b => b.isbn == isbn) = true) :
    add_book sys df title author isbn q today
      = (sys, none, [Msg.error "Book with this ISBN already exists."]) := by
  simp [add_book, h, h4]

theorem add_book_valid (sys : Sys) (df : Table) (title author isbn : String)
    (q : Nat) (today : String)
    (h : (title.isEmpty || author.isEmpty || isbn.isEmpty) = false)
    (h4 : df.any (fun b => b.isbn == isbn) = false) :
    add_book sys df title author isbn q today
      = ((save_data sys (some (df ++ [⟨title, author, isbn, q, today⟩]))).1,
         some (df ++ [⟨title, author, isbn, q, today⟩]),
         (save_data sys (some (df ++ [⟨title, author, isbn, q, today⟩]))).2
           ++ [Msg.success ("Book " ++ title ++ " added successfully!")]) := by
  simp [add_book, h, h4]

theorem remove_book_missing (sys : Sys) (df : Table) (isbn : String)
    (h : isbn.isEmpty = true) :
    remove_book sys df isbn
      = (sys, none, [Msg.error "Please enter the ISBN of the book to remove."]) := by
  simp [remove_book, h]

theorem remove_book_notfound (sys : Sys) (df : Table) (isbn : String)
    (h : isbn.isEmpty = false) (h2 : df.any (fun b => b.isbn == isbn) = false) :
    remove_book sys df isbn
      = (sys, none, [Msg.error "Book with this ISBN does not exist."]) := by
  simp [remove_book, h, h2]

theorem remove_book_found (sys : Sys) (df : Table) (isbn : String)
    (h : isbn.isEmpty = false) (h2 : df.any (fun b => b.isbn == isbn) = true) :
    remove_book sys df isbn
      = ((save_data sys (some (df.filter (fun b => b.isbn != isbn)))).1,
         some (df.filter (fun b => b.isbn != isbn)),
         (save_data sys (some (df.filter (fun b => b.isbn != isbn)))).2
           ++ [Msg.success "Book removed successfully!"]) := by
  simp [remove_book, h, h2]

/-! ### Shell interaction characterizations -/

theorem mainStep_add_none (sys : Sys) (inp : Inputs) (msgs : List Msg)
    (h : add_book sys (tableOf sys.disk) inp.title inp.author inp.isbn inp.quantity inp.today
        = (sys, none, msgs)) :
    mainStep sys .addBook inp
      = .ok (sys, (load_data sys.disk).2 ++ msgs
          ++ [Msg.error "An error occurred while saving data"]) := by
  simp [mainStep, tableOf_eq, h, save_data_none]

theorem mainStep_add_some (sys : Sys) (inp : Inputs) (sys1 : Sys) (t : Table)
    (msgs : List Msg)
    (h : add_book sys (tableOf sys.disk) inp.title inp.author inp.isbn inp.quantity inp.today
        = (sys1, some t, msgs)) :
    mainStep sys .addBook inp
      = .ok ((save_data ((save_data sys1 (some t)).1) (some t)).1,
          (load_data sys.disk).2 ++ msgs ++ (save_data sys1 (some t)).2
            ++ (save_data ((save_data sys1 (some t)).1) (some t)).2) := by
  simp [mainStep, tableOf_eq, h]

theorem mainStep_remove_none (sys : Sys) (inp : Inputs) (msgs : List Msg)
    (h : remove_book sys (tableOf sys.disk) inp.isbnToRemove = (sys, none, msgs)) :
    mainStep sys .removeBook inp
      = .ok (sys, (load_data sys.disk).2 ++ msgs
          ++ [Msg.error "An error occurred while saving data"]) := by
  simp [mainStep, tableOf_eq, h, save_data_none]

theorem mainStep_remove_some (sys : Sys) (inp : Inputs) (sys1 : Sys) (t : Table)
    (msgs : List Msg)
    (h : remove_book sys (tableOf sys.disk) inp.isbnToRemove = (sys1, some t, msgs)) :
    mainStep sys .removeBook inp
      = .ok ((save_data ((save_data sys1 (some t)).1) (some t)).1,
          (load_data sys.disk).2 ++ msgs ++ (save_data sys1 (some t)).2
            ++ (save_data ((save_data sys1 (some t)).1) (some t)).2) := by
  simp [mainStep, tableOf_eq, h]

theorem mainStep_search (sys : Sys) (inp : Inputs) :
    mainStep sys .searchBook inp
      = .ok ((save_data sys (some (tableOf sys.disk))).1,
          (load_data sys.disk).2 ++ search_book (tableOf sys.disk) inp.searchTerm
            ++ (save_data sys (some (tableOf sys.disk))).2) := by
  simp [mainStep, tableOf_eq]

theorem mainStep_displayAll (sys : Sys) (inp : Inputs) :
    mainStep sys .displayAllBooks inp
      = .ok ((save_data sys (some (tableOf sys.disk))).1,
          (load_data sys.disk).2 ++ display_all_books (tableOf sys.disk)
            ++ (save_data sys (some (tableOf sys.disk))).2) := by
  simp [mainStep, tableOf_eq]

theorem mainStep_displayStats (sys : Sys) (inp : Inputs) :
    mainStep sys .displayStatistics inp
      = .ok ((save_data sys (some (tableOf sys.disk))).1,
          (load_data sys.disk).2 ++ display_statistics (tableOf sys.disk)
            ++ (save_data sys (some (tableOf sys.disk))).2) := by
  simp [mainStep, tableOf_eq]

theorem mainStep_exit (sys : Sys) (inp : Inputs) :
    mainStep sys .exitApp inp
      = .ok ((save_data sys (some (tableOf sys.disk))).1,
          (load_data sys.disk).2 ++ [Msg.write "Exiting the application."]
            ++ (save_data sys (some (tableOf sys.disk))).2) := by
  simp [mainStep, tableOf_eq]

theorem double_save_writable (sys : Sys) (t : Table) (h : sys.writable = true) :
    (save_data ((save_data sys (some t)).1) (some t)).1
      = { sys with disk := .stored (saveRows t) } := by
  rw [save_data_some_writable sys t h]
  have h2 : ({ sys with disk := DiskState.stored (saveRows t) } : Sys).writable = true := h
  rw [save_data_some_writable _ t h2]

theorem double_save_ro (sys : Sys) (t : Table) (h : sys.writable = false) :
    (save_data ((save_data sys (some t)).1) (some t)).1 = sys := by
  rw [save_data_some_ro sys t h, save_data_some_ro sys t h]

/-- The stored table after a double save of `t` is the old one or `t`. -/
theorem tableOf_double_save (sys : Sys) (t : Table) :
    tableOf ((save_data ((save_data sys (some t)).1) (some t)).1).disk
        = tableOf sys.disk ∨
      tableOf ((save_data ((save_data sys (some t)).1) (some t)).1).disk = t := by
  by_cases h : sys.writable
  · right
    rw [double_save_writable sys t h]
    exact tableOf_stored t
  · left
    rw [double_save_ro sys t (Bool.eq_false_iff.mpr h)]

theorem isEmpty_false_of_ne {s : String} (h : s ≠ "") : s.isEmpty = false := by
  rw [Bool.eq_false_iff]
  intro hemp
  exact h ((String.isEmpty_iff s).mp hemp)

theorem any_isbn_false {df : Table} {isbn : String} (h : isbn ∉ df.map Book.isbn) :
    df.any (fun b => b.isbn == isbn) = false := by
  rw [Bool.eq_false_iff]
  intro hany
  obtain ⟨b, hb, hbeq⟩ := List.any_eq_true.mp hany
  exact h (List.mem_map.mpr ⟨b, hb, by simpa using hbeq⟩)

/-! ### Claim theorems -/

/-- C4: a valid add (non-empty fields, quantity at least 1, fresh ISBN)
appends exactly one record carrying the current date at the end of the
table, reports success, persists the result when the store is writable,
and grows the table by one. -/
theorem add_book_success (sys : Sys) (df : Table) (title author isbn : String)
    (q : Nat) (today : String)
    (h1 : title ≠ "") (h2 : author ≠ "") (h3 : isbn ≠ "")
    (hq : 1 ≤ q) (h5 : isbn ∉ df.map Book.isbn) :
    (add_book sys df title author isbn q today).2.1
        = some (df ++ [⟨title, author, isbn, q, today⟩]) ∧
      Msg.success ("Book " ++ title ++ " added successfully!")
        ∈ (add_book sys df title author isbn q today).2.2 ∧
      (sys.writable = true →
        tableOf ((add_book sys df title author isbn q today).1).disk
          = df ++ [⟨title, author, isbn, q, today⟩]) ∧
      (df ++ [(⟨title, author, isbn, q, today⟩ : Book)]).length = df.length + 1 := by
  have hcond : (title.isEmpty || author.isEmpty || isbn.isEmpty) = false := by
    rw [isEmpty_false_of_ne h1, isEmpty_false_of_ne h2, isEmpty_false_of_ne h3]
    rfl
  have hany := any_isbn_false h5
  rw [add_book_valid sys df title author isbn q today hcond hany]
  refine ⟨rfl, by simp, ?_, by simp⟩
  intro hw
  show tableOf ((save_data sys (some (df ++ [⟨title, author, isbn, q, today⟩]))).1).disk = _
  rw [save_data_some_writable _ _ hw]
  exact tableOf_stored _

theorem add_book_success_witness :
    ("Dune" ≠ "" ∧ "Frank Herbert" ≠ "" ∧ "9780441013593" ≠ "" ∧ 1 ≤ 3 ∧
      "9780441013593" ∉ ([] : Table).map Book.isbn) ∧
    (add_book (Sys.mk DiskState.missing true) [] "Dune" "Frank Herbert" "9780441013593"
        3 "2026-10-12").2.1
      = some (([] : Table) ++ [⟨"Dune", "Frank Herbert", "9780441013593", 3, "2026-10-12"⟩]) :=
  ⟨⟨by decide, by decide, by decide, by decide, by simp⟩,
    (add_book_success (Sys.mk DiskState.missing true) [] "Dune" "Frank Herbert"
      "9780441013593" 3 "2026-10-12" (by decide) (by decide) (by decide) (by decide)
      (by simp)).1⟩

/-- C5: removing an ISBN that occurs exactly once keeps exactly the
non-matching records in their original order, shrinks the table by one,
leaves the ISBN absent, reports success, and persists the result when
the store is writable. -/
theorem remove_book_success (sys : Sys) (df : Table) (isbn : String)
    (h1 : isbn ≠ "") (h2 : df.countP (fun b => b.isbn == isbn) = 1) :
    (remove_book sys df isbn).2.1 = some (df.filter (fun b => b.isbn != isbn)) ∧
      (df.filter (fun b => b.isbn != isbn)).length + 1 = df.length ∧
      (∀ b ∈ df.filter (fun b => b.isbn != isbn), b.isbn ≠ isbn) ∧
      (df.filter (fun b => b.isbn != isbn)).Sublist df ∧
      (∀ b ∈ df, b.isbn ≠ isbn → b ∈ df.filter (fun b => b.isbn != isbn)) ∧
      Msg.success "Book removed successfully!" ∈ (remove_book sys df isbn).2.2 ∧
      (sys.writable = true →
        tableOf ((remove_book sys df isbn).1).disk
          = df.filter (fun b => b.isbn != isbn)) := by
  have hE := isEmpty_false_of_ne h1
  have hany : df.any (fun b => b.isbn == isbn) = true := by
    rw [List.any_eq_true]
    have hpos : 0 < df.countP (fun b => b.isbn == isbn) := by omega
    exact List.countP_pos_iff.mp hpos
  rw [remove_book_found sys df isbn hE hany]
  refine ⟨rfl, ?_, ?_, List.filter_sublist df, ?_, by simp, ?_⟩
  · have hlen := List.length_eq_countP_add_countP (p := fun b => b.isbn == isbn) df
    have hfun : (fun a : Book => decide (¬(a.isbn == isbn) = true))
        = (fun b : Book => !(b.isbn == isbn)) := by
      funext a
      by_cases h : a.isbn == isbn <;> simp [h]
    rw [hfun] at hlen
    have hfl : (df.filter (fun b => b.isbn != isbn)).length
        = df.countP (fun b => !(b.isbn == isbn)) := by
      rw [List.countP_eq_length_filter]
      rfl
    rw [hfl]
    omega
  · intro b hb
    have hmem := List.mem_filter.mp hb
    simpa using hmem.2
  · intro b hb hne
    exact List.mem_filter.mpr ⟨hb, by simpa using hne⟩
  · intro hw
    show tableOf ((save_data sys (some (df.filter (fun b => b.isbn != isbn)))).1).disk = _
    rw [save_data_some_writable _ _ hw]
    exact tableOf_stored _

theorem remove_book_success_witness :
    ("A1" ≠ "" ∧
      ([⟨"T", "A", "A1", 1, "2026-01-01"⟩] : Table).countP (fun b => b.isbn == "A1") = 1) ∧
    (remove_book (Sys.mk DiskState.missing true) [⟨"T", "A", "A1", 1, "2026-01-01"⟩] "A1").2.1
      = some (([⟨"T", "A", "A1", 1, "2026-01-01"⟩] : Table).filter (fun b => b.isbn != "A1")) :=
  ⟨⟨by decide, by decide⟩,
    (remove_book_success (Sys.mk DiskState.missing true)
      [⟨"T", "A", "A1", 1, "2026-01-01"⟩] "A1" (by decide) (by decide)).1⟩

/-- C8: removing a non-empty ISBN that is absent from the table reports
a not-found error, leaves the operation without a result table, and a
whole shell interaction built on it leaves the stored table unchanged. -/
theorem remove_book_absent (sys : Sys) (df : Table) (isbn : String)
    (h1 : isbn ≠ "") (h2 : isbn ∉ df.map Book.isbn) :
    remove_book sys df isbn
        = (sys, none, [Msg.error "Book with this ISBN does not exist."]) ∧
      (df = tableOf sys.disk → ∀ inp : Inputs, inp.isbnToRemove = isbn →
        mainStep sys .removeBook inp
          = .ok (sys, (load_data sys.disk).2
              ++ [Msg.error "Book with this ISBN does not exist."]
              ++ [Msg.error "An error occurred while saving data"])) := by
  have hE := isEmpty_false_of_ne h1
  have hany := any_isbn_false h2
  have heq := remove_book_notfound sys df isbn hE hany
  refine ⟨heq, ?_⟩
  intro hdf inp hinp
  have heq2 : remove_book sys (tableOf sys.disk) inp.isbnToRemove
      = (sys, none, [Msg.error "Book with this ISBN does not exist."]) := by
    rw [hinp, ← hdf]
    exact heq
  have h3 := mainStep_remove_none sys inp _ heq2
  simpa using h3

theorem remove_book_absent_witness :
    ("A1" ≠ "" ∧ "A1" ∉ ([] : Table).map Book.isbn) ∧
    remove_book (Sys.mk DiskState.missing true) [] "A1"
      = ((Sys.mk DiskState.missing true), none,
          [Msg.error "Book with this ISBN does not exist."]) :=
  ⟨⟨by decide, by simp⟩,
    (remove_book_absent (Sys.mk DiskState.missing true) [] "A1" (by decide) (by simp)).1⟩

/-! ### Case analyses for the shell-level claims -/

theorem add_book_cases (sys : Sys) (df : Table) (title author isbn : String)
    (q : Nat) (today : String) :
    add_book sys df title author isbn q today
        = (sys, none, [Msg.error "Please fill in all book details."]) ∨
      add_book sys df title author isbn q today
        = (sys, none, [Msg.error "Book with this ISBN already exists."]) ∨
      (df.any (fun b => b.isbn == isbn) = false ∧
        add_book sys df title author isbn q today
          = ((save_data sys (some (df ++ [⟨title, author, isbn, q, today⟩]))).1,
             some (df ++ [⟨title, author, isbn, q, today⟩]),
             (save_data sys (some (df ++ [⟨title, author, isbn, q, today⟩]))).2
               ++ [Msg.success ("Book " ++ title ++ " added successfully!")])) := by
  by_cases hc : (title.isEmpty || author.isEmpty || isbn.isEmpty) = true
  · exact Or.inl (add_book_missing_field sys df title author isbn q today hc)
  · have hc2 := Bool.eq_false_iff.mpr hc
    by_cases ha : df.any (fun b => b.isbn == isbn) = true
    · exact Or.inr (Or.inl (add_book_duplicate sys df title author isbn q today hc2 ha))
    · have ha2 := Bool.eq_false_iff.mpr ha
      exact Or.inr (Or.inr ⟨ha2, add_book_valid sys df title author isbn q today hc2 ha2⟩)

theorem remove_book_cases (sys : Sys) (df : Table) (isbn : String) :
    remove_book sys df isbn
        = (sys, none, [Msg.error "Please enter the ISBN of the book to remove."]) ∨
      remove_book sys df isbn
        = (sys, none, [Msg.error "Book with this ISBN does not exist."]) ∨
      remove_book sys df isbn
        = ((save_data sys (some (df.filter (fun b => b.isbn != isbn)))).1,
           some (df.filter (fun b => b.isbn != isbn)),
           (save_data sys (some (df.filter (fun b => b.isbn != isbn)))).2
             ++ [Msg.success "Book removed successfully!"]) := by
  by_cases hc : isbn.isEmpty = true
  · exact Or.inl (remove_book_missing sys df isbn hc)
  · have hc2 := Bool.eq_false_iff.mpr hc
    by_cases ha : df.any (fun b => b.isbn == isbn) = true
    · exact Or.inr (Or.inr (remove_book_found sys df isbn hc2 ha))
    · exact Or.inr (Or.inl (remove_book_notfound sys df isbn hc2 (Bool.eq_false_iff.mpr ha)))

theorem triple_save_writable (sys : Sys) (t : Table) (h : sys.writable = true) :
    (save_data ((save_data ((save_data sys (some t)).1) (some t)).1) (some t)).1
      = { sys with disk := .stored (saveRows t) } := by
  rw [double_save_writable sys t h]
  have h2 : ({ sys with disk := DiskState.stored (saveRows t) } : Sys).writable = true := h
  rw [save_data_some_writable _ t h2]

theorem triple_save_ro (sys : Sys) (t : Table) (h : sys.writable = false) :
    (save_data ((save_data ((save_data sys (some t)).1) (some t)).1) (some t)).1 = sys := by
  rw [save_data_some_ro sys t h, save_data_some_ro sys t h, save_data_some_ro sys t h]

theorem tableOf_triple_save (sys : Sys) (t : Table) :
    tableOf ((save_data ((save_data ((save_data sys (some t)).1) (some t)).1)
        (some t)).1).disk = tableOf sys.disk ∨
      tableOf ((save_data ((save_data ((save_data sys (some t)).1) (some t)).1)
        (some t)).1).disk = t := by
  by_cases h : sys.writable
  · right
    rw [triple_save_writable sys t h]
    exact tableOf_stored t
  · left
    rw [triple_save_ro sys t (Bool.eq_false_iff.mpr h)]

/-- After any shell interaction, the stored table is unchanged, the
result of a successful add, or the result of a successful remove. -/
theorem mainStep_table_cases (sys : Sys) (choice : Choice) (inp : Inputs)
    (out : Sys × List Msg) (h : mainStep sys choice inp = .ok out) :
    tableOf out.1.disk = tableOf sys.disk ∨
      (∃ t, (add_book sys (tableOf sys.disk) inp.title inp.author inp.isbn
          inp.quantity inp.today).2.1 = some t ∧ tableOf out.1.disk = t) ∨
      (∃ t, (remove_book sys (tableOf sys.disk) inp.isbnToRemove).2.1 = some t ∧
        tableOf out.1.disk = t) := by
  cases choice with
  | addBook =>
    rcases add_book_cases sys (tableOf sys.disk) inp.title inp.author inp.isbn
        inp.quantity inp.today with hc | hc | ⟨hany, hc⟩
    · rw [mainStep_add_none sys inp _ hc] at h
      rw [← Except.ok.inj h]
      exact Or.inl rfl
    · rw [mainStep_add_none sys inp _ hc] at h
      rw [← Except.ok.inj h]
      exact Or.inl rfl
    · rw [mainStep_add_some sys inp _ _ _ hc] at h
      rw [← Except.ok.inj h]
      rcases tableOf_triple_save sys (tableOf sys.disk
          ++ [⟨inp.title, inp.author, inp.isbn, inp.quantity, inp.today⟩]) with h1 | h1
      · exact Or.inl h1
      · refine Or.inr (Or.inl ⟨_, ?_, h1⟩)
        rw [hc]
  | removeBook =>
    rcases remove_book_cases sys (tableOf sys.disk) inp.isbnToRemove with hc | hc | hc
    · rw [mainStep_remove_none sys inp _ hc] at h
      rw [← Except.ok.inj h]
      exact Or.inl rfl
    · rw [mainStep_remove_none sys inp _ hc] at h
      rw [← Except.ok.inj h]
      exact Or.inl rfl
    · rw [mainStep_remove_some sys inp _ _ _ hc] at h
      rw [← Except.ok.inj h]
      rcases tableOf_triple_save sys
          ((tableOf sys.disk).filter (fun b => b.isbn != inp.isbnToRemove)) with h1 | h1
      · exact Or.inl h1
      · refine Or.inr (Or.inr ⟨_, ?_, h1⟩)
        rw [hc]
  | searchBook =>
    rw [mainStep_search sys inp] at h
    rw [← Except.ok.inj h]
    rcases tableOf_save_data_some sys (tableOf sys.disk) with h1 | h1 <;> exact Or.inl h1
  | displayAllBooks =>
    rw [mainStep_displayAll sys inp] at h
    rw [← Except.ok.inj h]
    rcases tableOf_save_data_some sys (tableOf sys.disk) with h1 | h1 <;> exact Or.inl h1
  | displayStatistics =>
    rw [mainStep_displayStats sys inp] at h
    rw [← Except.ok.inj h]
    rcases tableOf_save_data_some sys (tableOf sys.disk) with h1 | h1 <;> exact Or.inl h1
  | exitApp =>
    rw [mainStep_exit sys inp] at h
    rw [← Except.ok.inj h]
    rcases tableOf_save_data_some sys (tableOf sys.disk) with h1 | h1 <;> exact Or.inl h1

theorem distinctIsbns_append {df : Table} {b : Book}
    (h : distinctIsbns df) (hnew : df.any (fun x => x.isbn == b.isbn) = false) :
    distinctIsbns (df ++ [b]) := by
  rw [distinctIsbns, List.pairwise_append]
  refine ⟨h, List.pairwise_singleton _ _, ?_⟩
  intro a ha c hc
  rw [List.mem_singleton.mp hc]
  intro heq
  have hcontra : df.any (fun x => x.isbn == b.isbn) = true :=
    List.any_eq_true.mpr ⟨a, ha, by simp [heq]⟩
  rw [hcontra] at hnew
  cases hnew

theorem distinctIsbns_filter {df : Table} (p : Book → Bool) (h : distinctIsbns df) :
    distinctIsbns (df.filter p) :=
  List.Pairwise.sublist (List.filter_sublist df) h

/-! ### Search: the executable mask agrees with substring occurrence -/

theorem containsSeq_iff_infix (pat hay : List Char) :
    containsSeq pat hay = true ↔ pat <:+: hay := by
  induction hay with
  | nil =>
    simp [containsSeq, List.isPrefixOf_iff_prefix]
  | cons c hs ih =>
    simp [containsSeq, List.isPrefixOf_iff_prefix, ih, List.infix_cons_iff]

/-- C7: for a non-empty table, `display_statistics` reports the sum of
the Quantity column as the total and the record count as the number of
unique books; for the empty table it only reports that there is nothing
to compute. -/
theorem statistics_values (df : Table) :
    (df ≠ [] →
      ∃ author, display_statistics df
        = [Msg.write ("Total Number of Books: "
              ++ Nat.repr ((df.map (fun b => b.quantity)).sum)),
           Msg.write ("Number of Unique Books: " ++ Nat.repr df.length),
           Msg.write ("Most Common Author: " ++ author)]) ∧
      display_statistics ([] : Table)
        = [Msg.info "No books in the library to display statistics."] := by
  constructor
  · intro hne
    have hE : df.isEmpty = false := by
      cases df with
      | nil => exact absurd rfl hne
      | cons b t => rfl
    exact ⟨(modeFirst (df.map (fun b => b.author))).getD "N/A",
      by simp [display_statistics, hE]⟩
  · rfl

theorem statistics_values_witness :
    ([⟨"Dune", "Frank Herbert", "9780441013593", 3, "2026-10-12"⟩] : Table) ≠ [] ∧
    ∃ author, display_statistics
        ([⟨"Dune", "Frank Herbert", "9780441013593", 3, "2026-10-12"⟩] : Table)
      = [Msg.write ("Total Number of Books: "
            ++ Nat.repr ((([⟨"Dune", "Frank Herbert", "9780441013593", 3,
                "2026-10-12"⟩] : Table).map (fun b => b.quantity)).sum)),
         Msg.write ("Number of Unique Books: "
            ++ Nat.repr ([⟨"Dune", "Frank Herbert", "9780441013593", 3,
                "2026-10-12"⟩] : Table).length),
         Msg.write ("Most Common Author: " ++ author)] :=
  ⟨by decide,
    (statistics_values [⟨"Dune", "Frank Herbert", "9780441013593", 3, "2026-10-12"⟩]).1
      (by decide)⟩

/-! ### The first mode of the author column -/

theorem le_foldr_max (L : List Nat) : ∀ x ∈ L, x ≤ L.foldr max 0 := by
  induction L with
  | nil => simp
  | cons y ys ih =>
    intro x hx
    rcases List.mem_cons.mp hx with h | h
    · rw [h]
      exact le_max_left _ _
    · exact le_trans (ih x h) (le_max_right _ _)

theorem foldr_max_mem (L : List Nat) : L.foldr max 0 = 0 ∨ L.foldr max 0 ∈ L := by
  induction L with
  | nil => exact Or.inl rfl
  | cons y ys ih =>
    rcases max_choice y (ys.foldr max 0) with h | h
    · right
      rw [List.foldr_cons, h]
      exact List.mem_cons_self _ _
    · rw [List.foldr_cons, h]
      rcases ih with h0 | hm
      · exact Or.inl h0
      · exact Or.inr (List.mem_cons_of_mem _ hm)

theorem authorCount_pos {l : List String} {a : String} (h : a ∈ l) :
    0 < authorCount l a := by
  rw [authorCount]
  have hmem : a ∈ l.filter (fun x => x == a) := List.mem_filter.mpr ⟨h, by simp⟩
  exact List.length_pos.mpr (List.ne_nil_of_mem hmem)

theorem le_maxAuthorCount {l : List String} {a : String} (h : a ∈ l) :
    authorCount l a ≤ maxAuthorCount l :=
  le_foldr_max _ _ (List.mem_map.mpr ⟨a, h, rfl⟩)

theorem maxAuthorCount_attained {l : List String} (h : l ≠ []) :
    ∃ a ∈ l, authorCount l a = maxAuthorCount l := by
  rcases foldr_max_mem (l.map (authorCount l)) with h0 | hm
  · obtain ⟨a, ha⟩ := List.exists_mem_of_ne_nil l h
    have h1 := authorCount_pos ha
    have h2 := le_maxAuthorCount ha
    rw [maxAuthorCount] at h2 ⊢
    omega
  · obtain ⟨a, ha, hc⟩ := List.mem_map.mp hm
    exact ⟨a, ha, hc⟩

theorem foldl_min_le_init : ∀ (xs : List String) (x : String),
    xs.foldl (fun m a => if a < m then a else m) x ≤ x := by
  intro xs
  induction xs with
  | nil => intro x; exact le_refl x
  | cons y ys ih =>
    intro x
    rw [List.foldl_cons]
    refine le_trans (ih _) ?_
    by_cases h : y < x
    · rw [if_pos h]
      exact le_of_lt h
    · rw [if_neg h]

theorem foldl_min_mem : ∀ (xs : List String) (x : String),
    xs.foldl (fun m a => if a < m then a else m) x = x ∨
      xs.foldl (fun m a => if a < m then a else m) x ∈ xs := by
  intro xs
  induction xs with
  | nil => intro x; exact Or.inl rfl
  | cons y ys ih =>
    intro x
    rw [List.foldl_cons]
    rcases ih (if y < x then y else x) with h | h
    · rw [h]
      by_cases hy : y < x
      · rw [if_pos hy]
        exact Or.inr (List.mem_cons_self _ _)
      · rw [if_neg hy]
        exact Or.inl rfl
    · exact Or.inr (List.mem_cons_of_mem _ h)

theorem foldl_min_le_mem : ∀ (xs : List String) (x c : String), c ∈ xs →
    xs.foldl (fun m a => if a < m then a else m) x ≤ c := by
  intro xs
  induction xs with
  | nil => intro x c hc; cases hc
  | cons y ys ih =>
    intro x c hc
    rw [List.foldl_cons]
    rcases List.mem_cons.mp hc with h | h
    · rw [h]
      refine le_trans (foldl_min_le_init _ _) ?_
      by_cases hy : y < x
      · rw [if_pos hy]
      · rw [if_neg hy]
        exact le_of_not_lt hy
    · exact ih _ c h

theorem leastOf_spec {l : List String} {m : String} (h : leastOf l = some m) :
    m ∈ l ∧ ∀ c ∈ l, m ≤ c := by
  cases l with
  | nil => cases h
  | cons x xs =>
    have hm : xs.foldl (fun m a => if a < m then a else m) x = m := Option.some.inj h
    constructor
    · rcases foldl_min_mem xs x with h1 | h1
      · rw [← hm, h1]
        exact List.mem_cons_self _ _
      · rw [← hm]
        exact List.mem_cons_of_mem _ h1
    · intro c hc
      rcases List.mem_cons.mp hc with h1 | h1
      · rw [← hm, h1]
        exact foldl_min_le_init xs x
      · rw [← hm]
        exact foldl_min_le_mem xs x c h1

/-- The value `modeFirst` of a non-empty column is the least value attaining the
maximal occurrence count. -/
theorem modeFirst_spec {l : List String} (h : l ≠ []) :
    ∃ m, modeFirst l = some m ∧ m ∈ l ∧ authorCount l m = maxAuthorCount l ∧
      ∀ c ∈ l, authorCount l c = maxAuthorCount l → m ≤ c := by
  obtain ⟨a, ha, hc⟩ := maxAuthorCount_attained h
  have hmem : a ∈ l.filter (fun x => authorCount l x == maxAuthorCount l) :=
    List.mem_filter.mpr ⟨ha, by simp [hc]⟩
  rcases hfl : l.filter (fun x => authorCount l x == maxAuthorCount l) with _ | ⟨x, xs⟩
  · rw [hfl] at hmem
    cases hmem
  · have hmode : modeFirst l = some (xs.foldl (fun m a => if a < m then a else m) x) := by
      rw [modeFirst, hfl]
      rfl
    obtain ⟨hmem2, hle⟩ := leastOf_spec (l := x :: xs)
      (m := xs.foldl (fun m a => if a < m then a else m) x) rfl
    rw [← hfl] at hmem2 hle
    have hmf := List.mem_filter.mp hmem2
    refine ⟨_, hmode, hmf.1, by simpa using hmf.2, ?_⟩
    intro c hcl hcount
    exact hle c (List.mem_filter.mpr ⟨hcl, by simp [hcount]⟩)

/-- The value `a` is an author of maximal record count in `df`. -/
def tiedTop (df : Table) (a : String) : Prop :=
  a ∈ df.map (fun b => b.author) ∧
    authorCount (df.map (fun b => b.author)) a
      = maxAuthorCount (df.map (fun b => b.author))

/-- C10: on a non-empty table with at least two distinct authors tied
at the maximal record count, `display_statistics` reports the
lexicographically least of the tied authors (the first element of the
sorted pandas mode). -/
theorem mode_tie_break (df : Table) (h : df ≠ []) (a b : String) (hab : a ≠ b)
    (ha : tiedTop df a) (hb : tiedTop df b) :
    ∃ m, display_statistics df
        = [Msg.write ("Total Number of Books: "
              ++ Nat.repr ((df.map (fun x => x.quantity)).sum)),
           Msg.write ("Number of Unique Books: " ++ Nat.repr df.length),
           Msg.write ("Most Common Author: " ++ m)] ∧
      tiedTop df m ∧ ∀ c, tiedTop df c → m ≤ c := by
  have hl : df.map (fun x => x.author) ≠ [] := by
    cases df with
    | nil => exact absurd rfl h
    | cons x t => simp
  obtain ⟨m, hm, hmem, hcount, hleast⟩ := modeFirst_spec hl
  have hE : df.isEmpty = false := by
    cases df with
    | nil => exact absurd rfl h
    | cons x t => rfl
  refine ⟨m, ?_, ⟨hmem, hcount⟩, ?_⟩
  · simp [display_statistics, hE, hm]
  · rintro c ⟨hc1, hc2⟩
    exact hleast c hc1 hc2

theorem mode_tie_break_witness :
    (([⟨"T1", "B", "1", 1, "d"⟩, ⟨"T2", "A", "2", 1, "d"⟩] : Table) ≠ [] ∧
      "A" ≠ "B" ∧
      tiedTop [⟨"T1", "B", "1", 1, "d"⟩, ⟨"T2", "A", "2", 1, "d"⟩] "A" ∧
      tiedTop [⟨"T1", "B", "1", 1, "d"⟩, ⟨"T2", "A", "2", 1, "d"⟩] "B") ∧
    ∃ m, display_statistics ([⟨"T1", "B", "1", 1, "d"⟩, ⟨"T2", "A", "2", 1, "d"⟩] : Table)
        = [Msg.write ("Total Number of Books: "
              ++ Nat.repr ((([⟨"T1", "B", "1", 1, "d"⟩,
                  ⟨"T2", "A", "2", 1, "d"⟩] : Table).map (fun x => x.quantity)).sum)),
           Msg.write ("Number of Unique Books: "
              ++ Nat.repr ([⟨"T1", "B", "1", 1, "d"⟩,
                  ⟨"T2", "A", "2", 1, "d"⟩] : Table).length),
           Msg.write ("Most Common Author: " ++ m)] ∧
      tiedTop [⟨"T1", "B", "1", 1, "d"⟩, ⟨"T2", "A", "2", 1, "d"⟩] m ∧
      ∀ c, tiedTop [⟨"T1", "B", "1", 1, "d"⟩, ⟨"T2", "A", "2", 1, "d"⟩] c → m ≤ c :=
  ⟨⟨by decide, by decide, ⟨by decide, by decide⟩, ⟨by decide, by decide⟩⟩,
    mode_tie_break [⟨"T1", "B", "1", 1, "d"⟩, ⟨"T2", "A", "2", 1, "d"⟩] (by decide)
      "A" "B" (by decide) ⟨by decide, by decide⟩ ⟨by decide, by decide⟩⟩

/-! ### Value-level storage lemmas -/

theorem save_dataV_some_writable (sys : Sys) (t : PTable) (h : sys.writable = true) :
    save_dataV sys (some t) = ({ sys with disk := .stored (saveRowsV t) }, []) := by
  simp [save_dataV, toCsvRawV, h]

theorem save_dataV_some_ro (sys : Sys) (t : PTable) (h : sys.writable = false) :
    save_dataV sys (some t) = (sys, [Msg.error "An error occurred while saving data"]) := by
  simp [save_dataV, toCsvRawV, h]

theorem save_dataV_fst_writable (sys : Sys) (odf : Option PTable) :
    ((save_dataV sys odf).1).writable = sys.writable := by
  match odf with
  | none => rfl
  | some t =>
    by_cases h : sys.writable
    · rw [save_dataV_some_writable sys t h]
    · rw [save_dataV_some_ro sys t (Bool.eq_false_iff.mpr h)]

theorem matchesAt_lit (pat : List Char) : ∀ l,
    matchesAt (pat.map RTok.lit) l = List.isPrefixOf pat l := by
  induction pat with
  | nil => intro l; cases l <;> rfl
  | cons c cs ih =>
    intro l
    cases l with
    | nil => rfl
    | cons d ds => simp [matchesAt, matchTok, List.isPrefixOf, ih]

theorem reSearch_lit (pat : List Char) : ∀ hay,
    reSearch (pat.map RTok.lit) hay = containsSeq pat hay := by
  intro hay
  induction hay with
  | nil =>
    show matchesAt (pat.map RTok.lit) [] = List.isPrefixOf pat []
    exact matchesAt_lit pat []
  | cons c cs ih => simp [reSearch, containsSeq, matchesAt_lit, ih]

theorem compileRe_literal (pat : String)
    (h : pat.data.all (fun c => !metaChar c) = true) :
    compileRe pat = .tokens (pat.data.map RTok.lit) := by
  have hall := List.all_eq_true.mp h
  have hc : pat.data.all (fun c => !metaChar c || c.toNat == 46) = true := by
    rw [List.all_eq_true]
    intro c hcm
    rw [hall c hcm]
    rfl
  rw [compileRe, if_pos hc]
  congr 1
  apply List.map_congr_left
  intro c hcm
  have h1 := hall c hcm
  by_cases h46 : (c.toNat == 46) = true
  · exfalso
    have hm : metaChar c = true := by
      rw [metaChar]
      simp only [h46]
      rfl
    rw [hm] at h1
    cases h1
  · simp [h46]

theorem embed_title_isStr (df : Table) :
    (embedTable df).all (fun r => r.title.isStr) = true := by
  rw [List.all_eq_true]
  intro r hr
  obtain ⟨b, _, rfl⟩ := List.mem_map.mp hr
  rfl

theorem embed_author_isStr (df : Table) :
    (embedTable df).all (fun r => r.author.isStr) = true := by
  rw [List.all_eq_true]
  intro r hr
  obtain ⟨b, _, rfl⟩ := List.mem_map.mp hr
  rfl

theorem isEmpty_embedTable (l : Table) : (embedTable l).isEmpty = l.isEmpty := by
  cases l <;> rfl

/-- C6 (corrected): for a non-empty term whose lowered form is free of
regex metacharacters, the search over an in-session (all-string) table
displays exactly the records whose lowered Title or Author contains
the lowered term as a contiguous substring, in original table order,
without producing any table; the empty term only asks for a term; and
the term TOLKIEN matches any record whose Author is J.R.R. Tolkien. -/
theorem search_semantics_literal (df : Table) (term : String) :
    (term ≠ "" → ((term.data.map Char.toLower).all (fun c => !metaChar c)) = true →
      search_bookV (embedTable df) term
          = .ok (if (df.filter (matchesTerm term)).isEmpty then
              [Msg.info "No matching books found."]
            else [Msg.displayV (embedTable (df.filter (matchesTerm term)))]) ∧
        (df.filter (matchesTerm term)).Sublist df ∧
        (∀ b, b ∈ df.filter (matchesTerm term) ↔ b ∈ df ∧ matchesTerm term b = true) ∧
        (∀ b : Book, matchesTerm term b = true ↔
          (lowerData term <:+: lowerData b.title ∨
            lowerData term <:+: lowerData b.author))) ∧
      search_bookV (embedTable df) "" = .ok [Msg.info "Please enter a search term."] ∧
      (∀ b : Book, b.author = "J.R.R. Tolkien" → matchesTerm "TOLKIEN" b = true) := by
  refine ⟨?_, ?_, ?_⟩
  · intro hne hlit
    have hE : term.isEmpty = false := isEmpty_false_of_ne hne
    have hcomp : compileRe ((term.data.map Char.toLower).asString)
        = .tokens ((term.data.map Char.toLower).map RTok.lit) :=
      compileRe_literal ((term.data.map Char.toLower).asString) hlit
    have hres : (embedTable df).filter (fun r =>
        reSearch ((term.data.map Char.toLower).map RTok.lit)
            ((pyStrData r.title).map Char.toLower) ||
          reSearch ((term.data.map Char.toLower).map RTok.lit)
            ((pyStrData r.author).map Char.toLower))
        = embedTable (df.filter (matchesTerm term)) := by
      rw [embedTable, embedTable, List.filter_map]
      apply congrArg
      apply List.filter_congr
      intro b _
      show (reSearch ((term.data.map Char.toLower).map RTok.lit)
            ((b.title.data).map Char.toLower) ||
          reSearch ((term.data.map Char.toLower).map RTok.lit)
            ((b.author.data).map Char.toLower)) = matchesTerm term b
      rw [reSearch_lit, reSearch_lit]
      rfl
    refine ⟨?_, List.filter_sublist df, ?_, ?_⟩
    · simp only [search_bookV, hE, Bool.not_false, if_true, embed_title_isStr,
        embed_author_isStr, hcomp, hres]
      by_cases hres2 : (df.filter (matchesTerm term)).isEmpty = true
      · simp [isEmpty_embedTable, hres2]
      · simp [isEmpty_embedTable, Bool.eq_false_iff.mpr hres2]
    · intro b
      constructor
      · intro hb
        exact List.mem_filter.mp hb
      · intro hb
        exact List.mem_filter.mpr hb
    · intro b
      rw [matchesTerm, Bool.or_eq_true, containsSeq_iff_infix, containsSeq_iff_infix]
  · simp [search_bookV, show ("" : String).isEmpty = true from rfl]
  · intro b hb
    rw [matchesTerm, hb]
    have h2 : containsSeq (lowerData "TOLKIEN") (lowerData "J.R.R. Tolkien") = true := rfl
    rw [h2, Bool.or_true]

theorem search_semantics_literal_witness :
    ("tol" ≠ "" ∧ (("tol".data.map Char.toLower).all (fun c => !metaChar c)) = true ∧
      (([] : Table).filter (matchesTerm "tol")).Sublist []) ∧
      search_bookV (embedTable []) "" = .ok [Msg.info "Please enter a search term."] ∧
      matchesTerm "TOLKIEN" ⟨"The Hobbit", "J.R.R. Tolkien", "42", 1, "2026-01-01"⟩ = true :=
  ⟨⟨by decide, by decide,
      ((search_semantics_literal [] "tol").1 (by decide) (by decide)).2.1⟩,
    (search_semantics_literal [] "x").2.1,
    (search_semantics_literal [] "x").2.2
      ⟨"The Hobbit", "J.R.R. Tolkien", "42", 1, "2026-01-01"⟩ rfl⟩

/-- Counterexample to C6 as stated: the term is applied as a regular
expression, so searching for a dot displays a record although the dot
occurs nowhere in its Title or Author as a literal substring. -/
theorem search_substring_counterexample :
    search_bookV (embedTable [⟨"abc", "xyz", "q9z", 1, "2026-01-01"⟩]) "."
        = .ok [Msg.displayV (embedTable [⟨"abc", "xyz", "q9z", 1, "2026-01-01"⟩])] ∧
      matchesTerm "." ⟨"abc", "xyz", "q9z", 1, "2026-01-01"⟩ = false :=
  ⟨by decide, by decide⟩

end LibraryManagement
